import Mathlib

/-!
# Verification of the CropHealthPrediction analysis core

Shallow embedding of the repository's analysis core:
* `src/backend/utils/sentinel2Bands.js` (shipped as `src/unnamed/part_003`):
  Sentinel-2 index calculators and `computeAllIndices`;
* `src/backend/services/analysisEngine.js`: crop health scoring, problem
  identification, soil analysis merge, pest risk assessment, alert generation;
* `src/backend/routes/pestRisk.js`: the pest alert emitted by the
  `POST /:farmId/assess` route.

Conventions of the embedding:
* JavaScript numbers are modelled by `ℚ`.  All arithmetic the code performs on
  real (non-`NaN`) inputs is exact over the rationals, except `Math.sqrt`,
  which is passed in as an explicit function parameter `sq : ℚ → ℚ` wherever
  the code calls it (only `computeMSAVI`); the properties verified here hold
  for every choice of `sq`.
* `Math.round` rounds half away from zero upward, i.e. `round x = ⌊x + 1/2⌋`
  (`jsRound` below).
* A JavaScript value that is `undefined` or `NaN` is modelled by `none` in
  `JsNum := Option ℚ`.  In the index calculators every arithmetic operation
  with such a value produces `NaN`, every `===`/`<` comparison with it is
  `false` (so the zero-denominator and negative-radicand guards do not fire),
  and `Math.round`/`Math.min`/`Math.max` of `NaN` is `NaN`; hence an index is
  `NaN` exactly when one of the bands it consumes is absent.  The lifting
  combinators `lift2`/`lift3`/`lift4` encode precisely this propagation.
-/

namespace CropHealth

/-- JavaScript `Math.round`: round half towards positive infinity. -/
def jsRound (q : ℚ) : ℤ := ⌊q + 1/2⌋

/-- `Math.round` with the result kept as a number. -/
def jsRoundQ (q : ℚ) : ℚ := (jsRound q : ℚ)

/-- A JavaScript number that may be `NaN`/`undefined` (`none`). -/
abbrev JsNum := Option ℚ

/-- `round(val, decimals = 4)` of sentinel2Bands.js:
`Math.round(val * 10 ** 4) / 10 ** 4`. -/
def round4 (val : ℚ) : ℚ := jsRoundQ (val * 10 ^ 4) / 10 ^ 4

/-! ## Index Calculator (sentinel2Bands.js) -/

/-- `computeNDVI(B04, B08)`: `(B08 - B04) / (B08 + B04)`, `0` when the
denominator `B08 + B04` is `0`. -/
def computeNDVI (B04 B08 : ℚ) : ℚ :=
  if B08 + B04 = 0 then 0 else (B08 - B04) / (B08 + B04)

/-- `computeEVI(B02, B04, B08)`:
`2.5 * (B08 - B04) / (B08 + 6*B04 - 7.5*B02 + 1)`, `0` when the denominator
is `0`. -/
def computeEVI (B02 B04 B08 : ℚ) : ℚ :=
  let denominator := B08 + 6 * B04 - 7.5 * B02 + 1
  if denominator = 0 then 0 else 2.5 * ((B08 - B04) / denominator)

/-- `computeSAVI(B04, B08, L = 0.5)`:
`(B08 - B04) / (B08 + B04 + L) * (1 + L)`, `0` when the denominator is `0`.
The source's default argument `L = 0.5` is supplied explicitly at the one
call site (`computeAllIndices`). -/
def computeSAVI (B04 B08 L : ℚ) : ℚ :=
  let denominator := B08 + B04 + L
  if denominator = 0 then 0 else (B08 - B04) / denominator * (1 + L)

/-- `computeNDWI(B03, B08)`: `(B03 - B08) / (B03 + B08)`, `0` when the
denominator is `0`. -/
def computeNDWI (B03 B08 : ℚ) : ℚ :=
  if B03 + B08 = 0 then 0 else (B03 - B08) / (B03 + B08)

/-- `computeNDMI(B08, B11)`: `(B08 - B11) / (B08 + B11)`, `0` when the
denominator is `0`. -/
def computeNDMI (B08 B11 : ℚ) : ℚ :=
  if B08 + B11 = 0 then 0 else (B08 - B11) / (B08 + B11)

/-- `computeBSI(B02, B04, B08, B11)`:
`((B11 + B04) - (B08 + B02)) / ((B11 + B04) + (B08 + B02))`, `0` when the
denominator is `0`. -/
def computeBSI (B02 B04 B08 B11 : ℚ) : ℚ :=
  let numerator := (B11 + B04) - (B08 + B02)
  let denominator := (B11 + B04) + (B08 + B02)
  if denominator = 0 then 0 else numerator / denominator

/-- `computeMSAVI(B04, B08)` with `Math.sqrt` abstracted as `sq`:
`inner := (2*B08 + 1)^2 - 8*(B08 - B04)`; `0` when `inner < 0`, otherwise
`(2*B08 + 1 - sqrt inner) / 2`. -/
def computeMSAVI (sq : ℚ → ℚ) (B04 B08 : ℚ) : ℚ :=
  let inner := (2 * B08 + 1) ^ 2 - 8 * (B08 - B04)
  if inner < 0 then 0 else (2 * B08 + 1 - sq inner) / 2

/-- The five bands that `computeAllIndices` destructures from a `BandSample`
(`const { B02, B03, B04, B08, B11 } = bands`).  A `BandSample` is a mapping
with 13 fixed keys, any of which may be absent; the remaining eight keys are
not consumed by any modelled computation, so only these five are carried.
An absent key destructures to `undefined`, modelled as `none`. -/
structure Bands where
  B02 : JsNum
  B03 : JsNum
  B04 : JsNum
  B08 : JsNum
  B11 : JsNum
deriving DecidableEq

/-- Lift a two-band index through the `NaN` propagation described in the
file header: if either consumed band is absent the JavaScript computation
yields `NaN` (the guards compare `NaN === 0` / `NaN < 0`, which is `false`,
and the subsequent arithmetic and `round` keep `NaN`); otherwise the exact
rational computation runs and is rounded to 4 decimals. -/
def lift2 (f : ℚ → ℚ → ℚ) : JsNum → JsNum → JsNum
  | some a, some b => some (round4 (f a b))
  | _, _ => none

/-- Three-band variant of `lift2`. -/
def lift3 (f : ℚ → ℚ → ℚ → ℚ) : JsNum → JsNum → JsNum → JsNum
  | some a, some b, some c => some (round4 (f a b c))
  | _, _, _ => none

/-- Four-band variant of `lift2`. -/
def lift4 (f : ℚ → ℚ → ℚ → ℚ → ℚ) : JsNum → JsNum → JsNum → JsNum → JsNum
  | some a, some b, some c, some d => some (round4 (f a b c d))
  | _, _, _, _ => none

/-- The `IndexSet` as returned by `computeAllIndices`: seven indices, each a
number unless the bands it consumes were absent (in which case it is `NaN`,
modelled `none`). -/
structure IndexSetJ where
  ndvi : JsNum
  evi : JsNum
  savi : JsNum
  ndwi : JsNum
  ndmi : JsNum
  bsi : JsNum
  msavi : JsNum
deriving DecidableEq

/-- `computeAllIndices(bands)` of sentinel2Bands.js: destructures
`B02, B03, B04, B08, B11` and returns all seven indices, each rounded to 4
decimal places.  `sq` stands for `Math.sqrt` (used only by MSAVI). -/
def computeAllIndices (sq : ℚ → ℚ) (bands : Bands) : IndexSetJ where
  ndvi := lift2 computeNDVI bands.B04 bands.B08
  evi := lift3 computeEVI bands.B02 bands.B04 bands.B08
  savi := lift2 (fun b04 b08 => computeSAVI b04 b08 0.5) bands.B04 bands.B08
  ndwi := lift2 computeNDWI bands.B03 bands.B08
  ndmi := lift2 computeNDMI bands.B08 bands.B11
  bsi := lift4 computeBSI bands.B02 bands.B04 bands.B08 bands.B11
  msavi := lift2 (computeMSAVI sq) bands.B04 bands.B08

/-! ## Analysis engine data model (analysisEngine.js)

Here the inputs are real numbers: an `IndexSet` with rational index values
and a `WeatherSnapshot` with rational fields (the scoring functions receive
already-computed numbers; claims about them quantify over arbitrary index
sets). -/

/-- An `IndexSet` with numeric (non-`NaN`) values, as consumed by the
scoring functions. -/
structure IndexSet where
  ndvi : ℚ
  evi : ℚ
  savi : ℚ
  ndwi : ℚ
  ndmi : ℚ
  bsi : ℚ
  msavi : ℚ
deriving DecidableEq

/-- `WeatherSnapshot`: temperature (°C), humidity (%), rainfall (mm),
windSpeed (m/s). -/
structure Weather where
  temperature : ℚ
  humidity : ℚ
  rainfall : ℚ
  windSpeed : ℚ
deriving DecidableEq

/-- Health status enum of `analyzeCropHealth`. -/
inductive Status where
  | healthy
  | moderate
  | poor
  | critical
deriving DecidableEq

/-- Problem type strings used by `identifyProblems`. -/
inductive ProblemType where
  | low_ndvi
  | water_stress
  | bare_soil
  | disease_risk
deriving DecidableEq

/-- Problem severity strings used by `identifyProblems`. -/
inductive Severity where
  | low
  | medium
  | high
deriving DecidableEq

/-- A `Problem` record `{ type, severity, message }`. -/
structure Problem where
  ptype : ProblemType
  severity : Severity
  message : String
deriving DecidableEq

/-- `calculateHealthScore(indices, weather, cropType)` (analysisEngine.js
lines 18-37): base 50; NDVI tier bonus; NDMI tier bonus; weather penalties
when a snapshot is present; bare-soil penalty; then
`Math.max(0, Math.min(100, Math.round(score)))`.  `cropType` is accepted and
ignored exactly as in the source. -/
def calculateHealthScore (indices : IndexSet) (weather : Option Weather)
    (cropType : String) : ℤ :=
  let score : ℚ := 50
  let score := score +
    (if indices.ndvi > 0.6 then 35
     else if indices.ndvi > 0.4 then 25
     else if indices.ndvi > 0.2 then 15
     else 5)
  let score := score +
    (if indices.ndmi > 0.2 then 15
     else if indices.ndmi > 0 then 10
     else 3)
  let score :=
    match weather with
    | some w =>
        let score := score - (if w.temperature > 40 ∨ w.temperature < 5 then 10 else 0)
        score - (if w.humidity > 90 ∨ w.humidity < 20 then 5 else 0)
    | none => score
  let score := score - (if indices.bsi > 0.2 then 10 else 0)
  let _ := cropType
  max 0 (min 100 (jsRound score))

/-- `identifyProblems(indices, weather)` (analysisEngine.js lines 39-50):
pushes problems onto a list in source order — NDVI chain, NDMI chain, BSI
check, weather check. -/
def identifyProblems (indices : IndexSet) (weather : Option Weather) :
    List Problem :=
  let problems : List Problem := []
  let problems :=
    if indices.ndvi < 0.2 then
      problems ++ [⟨ProblemType.low_ndvi, Severity.high,
        "Very low vegetation activity. Possible crop failure or bare field."⟩]
    else if indices.ndvi < 0.4 then
      problems ++ [⟨ProblemType.low_ndvi, Severity.medium,
        "Below-average vegetation. Check for nutrient deficiency or disease."⟩]
    else problems
  let problems :=
    if indices.ndmi < -0.1 then
      problems ++ [⟨ProblemType.water_stress, Severity.high,
        "Severe water stress detected. Immediate irrigation needed."⟩]
    else if indices.ndmi < 0.1 then
      problems ++ [⟨ProblemType.water_stress, Severity.medium,
        "Moderate water stress. Consider increasing irrigation."⟩]
    else problems
  let problems :=
    if indices.bsi > 0.3 then
      problems ++ [⟨ProblemType.bare_soil, Severity.high,
        "Significant bare soil. Low crop coverage."⟩]
    else problems
  let problems :=
    match weather with
    | some w =>
        if w.humidity > 85 ∧ w.temperature > 20 then
          problems ++ [⟨ProblemType.disease_risk, Severity.medium,
            "Warm humid conditions. Fungal disease risk elevated."⟩]
        else problems
    | none => problems
  problems

/-- The `HealthAssessment` produced by `analyzeCropHealth` — indices, the
integer health score, the problem list and the status.  The recommendation
list (`generateCropRecommendations`, analysisEngine.js lines 52-89) is not
carried: no verified claim concerns it. -/
structure HealthAssessment where
  indices : IndexSet
  healthScore : ℤ
  problems : List Problem
  status : Status
deriving DecidableEq

/-- `analyzeCropHealth` (analysisEngine.js lines 6-16), taken from the point
where the indices have been computed: the source first runs
`computeAllIndices(bandData)` and every later step consumes only the
resulting `IndexSet`, so the model takes that `IndexSet` directly (the
claims about it quantify over index sets). -/
def analyzeCropHealth (indices : IndexSet) (weather : Option Weather)
    (cropType : String) : HealthAssessment :=
  let healthScore := calculateHealthScore indices weather cropType
  { indices := indices
    healthScore := healthScore
    problems := identifyProblems indices weather
    status :=
      if healthScore ≥ 75 then Status.healthy
      else if healthScore ≥ 50 then Status.moderate
      else if healthScore ≥ 25 then Status.poor
      else Status.critical }

/-! ### Reference (spec-side) formulations

These definitions transcribe the spec's wording of the algorithms — tier
bonuses written as independent summands, the problem list written as a
concatenation of independent rule segments — to be compared with the
source-side definitions above. -/

/-- Reference health score, following the spec's wording: 50 plus the NDVI
tier bonus plus the NDMI tier bonus plus the weather adjustments (skipped
when weather is absent) plus the BSI adjustment, clamped to `[0, 100]` and
rounded to an integer. -/
def specHealthScore (indices : IndexSet) (weather : Option Weather) : ℤ :=
  let ndviBonus : ℚ :=
    if indices.ndvi > 0.6 then 35
    else if indices.ndvi > 0.4 then 25
    else if indices.ndvi > 0.2 then 15
    else 5
  let ndmiBonus : ℚ :=
    if indices.ndmi > 0.2 then 15
    else if indices.ndmi > 0 then 10
    else 3
  let weatherAdj : ℚ :=
    match weather with
    | some w =>
        (if w.temperature > 40 ∨ w.temperature < 5 then -10 else 0) +
        (if w.humidity > 90 ∨ w.humidity < 20 then -5 else 0)
    | none => 0
  let bsiAdj : ℚ := if indices.bsi > 0.2 then -10 else 0
  jsRound (max 0 (min 100 (50 + ndviBonus + ndmiBonus + weatherAdj + bsiAdj)))

/-- Reference problem list, following the spec's wording: the concatenation
of the four independent rule segments in detection order (NDVI, then
moisture, then bare soil, then disease risk), each contributing exactly its
qualifying entry. -/
def specProblems (indices : IndexSet) (weather : Option Weather) :
    List Problem :=
  (if indices.ndvi < 0.2 then
    [⟨ProblemType.low_ndvi, Severity.high,
      "Very low vegetation activity. Possible crop failure or bare field."⟩]
   else if indices.ndvi < 0.4 then
    [⟨ProblemType.low_ndvi, Severity.medium,
      "Below-average vegetation. Check for nutrient deficiency or disease."⟩]
   else []) ++
  (if indices.ndmi < -0.1 then
    [⟨ProblemType.water_stress, Severity.high,
      "Severe water stress detected. Immediate irrigation needed."⟩]
   else if indices.ndmi < 0.1 then
    [⟨ProblemType.water_stress, Severity.medium,
      "Moderate water stress. Consider increasing irrigation."⟩]
   else []) ++
  (if indices.bsi > 0.3 then
    [⟨ProblemType.bare_soil, Severity.high,
      "Significant bare soil. Low crop coverage."⟩]
   else []) ++
  (match weather with
   | some w =>
      if w.humidity > 85 ∧ w.temperature > 20 then
        [⟨ProblemType.disease_risk, Severity.medium,
          "Warm humid conditions. Fungal disease risk elevated."⟩]
      else []
   | none => [])

/-! ## Pest risk assessment (analysisEngine.js lines 126-187) -/

/-- Risk level strings of `assessPestRisk`. -/
inductive RiskLevel where
  | low
  | medium
  | high
deriving DecidableEq

/-- A predicted pest `{ name, probability, description }`.  Probabilities are
integers both in the base table and after scaling (the scaled value is
`Math.round`ed). -/
structure Pest where
  name : String
  probability : ℤ
  description : String
deriving DecidableEq

/-- The per-crop base pest table of `getPredictedPests` (analysisEngine.js
lines 152-159), with the `pests[cropType] || pests.default` lookup written as
a chain of string comparisons. -/
def pestBaseTable (cropType : String) : List Pest :=
  if cropType = "wheat" then
    [⟨"Aphids", 45, "Common in warm weather"⟩,
     ⟨"Rust", 35, "Fungal disease in humid conditions"⟩]
  else if cropType = "rice" then
    [⟨"Stem Borer", 50, "Major rice pest"⟩,
     ⟨"Brown Plant Hopper", 40, "Sap-sucking insect"⟩]
  else if cropType = "cotton" then
    [⟨"Bollworm", 55, "Major cotton pest"⟩,
     ⟨"Whitefly", 40, "Vector for leaf curl virus"⟩]
  else if cropType = "corn" then
    [⟨"Fall Armyworm", 50, "Destructive larval pest"⟩,
     ⟨"Corn Borer", 35, "Stem-boring pest"⟩]
  else if cropType = "tomato" then
    [⟨"Fruit Borer", 50, "Damages fruits directly"⟩,
     ⟨"Leaf Miner", 35, "Creates tunnels in leaves"⟩]
  else
    [⟨"General Insects", 30, "Monitor for pest presence"⟩]

/-- `getPredictedPests(cropType, weather, riskLevel)` (analysisEngine.js
lines 151-163): base table scaled by the risk multiplier
(high 1.3, medium 1.0, low 0.6) with each probability rounded and clamped to
at most 95.  `weather` is accepted and ignored exactly as in the source. -/
def getPredictedPests (cropType : String) (weather : Option Weather)
    (riskLevel : RiskLevel) : List Pest :=
  let multiplier : ℚ :=
    if riskLevel = RiskLevel.high then 1.3
    else if riskLevel = RiskLevel.medium then 1.0
    else 0.6
  let _ := weather
  (pestBaseTable cropType).map fun p =>
    { p with probability := min 95 (jsRound ((p.probability : ℚ) * multiplier)) }

/-- The raw pest risk accumulator of `assessPestRisk` (analysisEngine.js
lines 127-138): start at 20; weather bonuses when a snapshot is present;
NDVI chain on the health assessment's indices (the source guards
`healthData && healthData.indices`, always satisfied by a
`HealthAssessment`); growth-stage bonus.  All addends are integers, so the
accumulator is carried in `ℤ`. -/
def pestRiskAccum (healthData : HealthAssessment) (weather : Option Weather)
    (cropStage : String) : ℤ :=
  let riskScore : ℤ := 20
  let riskScore :=
    match weather with
    | some w =>
        let riskScore := riskScore +
          (if 25 ≤ w.temperature ∧ w.temperature ≤ 35 then 15 else 0)
        let riskScore := riskScore + (if w.humidity > 70 then 15 else 0)
        let riskScore := riskScore + (if w.humidity > 85 then 10 else 0)
        riskScore + (if w.rainfall > 20 then 5 else 0)
    | none => riskScore
  let riskScore := riskScore +
    (if healthData.indices.ndvi < 0.3 then 15
     else if healthData.indices.ndvi < 0.5 then 8
     else 0)
  riskScore + (if cropStage = "flowering" ∨ cropStage = "fruiting" then 10 else 0)

/-- The `PestRiskAssessment` record returned by `assessPestRisk`.
`validUntil` is a timestamp in milliseconds (`Date.now() + 7 days`); the
tiered `preventionTips`/`treatments` lists (analysisEngine.js lines 165-187)
are not carried: no verified claim concerns them. -/
structure PestRiskAssessment where
  riskLevel : RiskLevel
  riskScore : ℤ
  confidence : ℤ
  pestTypes : List Pest
  cropStage : String
  validUntil : ℤ
deriving DecidableEq

/-- `assessPestRisk(healthData, weatherData, cropType, cropStage)`
(analysisEngine.js lines 126-149): risk level from the raw accumulator
(≥70 high, ≥40 medium, else low); reported score `Math.min(100, riskScore)`;
`confidence = Math.min(100, 60 + Math.round(riskScore / 5))` computed from
the raw accumulator; `validUntil = now + 7*24*60*60*1000` with `Date.now()`
passed in as `now`. -/
def assessPestRisk (now : ℤ) (healthData : HealthAssessment)
    (weather : Option Weather) (cropType cropStage : String) :
    PestRiskAssessment :=
  let riskScore := pestRiskAccum healthData weather cropStage
  let riskLevel :=
    if riskScore ≥ 70 then RiskLevel.high
    else if riskScore ≥ 40 then RiskLevel.medium
    else RiskLevel.low
  { riskLevel := riskLevel
    riskScore := min 100 riskScore
    confidence := min 100 (60 + jsRound ((riskScore : ℚ) / 5))
    pestTypes := getPredictedPests cropType weather riskLevel
    cropStage := cropStage
    validUntil := now + 7 * 24 * 60 * 60 * 1000 }

/-- Reference pest risk accumulator, following the spec's wording: 20 plus
independent summands for temperature, humidity (with the additional
high-humidity bonus), rainfall, the NDVI chain and the growth stage. -/
def specPestAccum (healthData : HealthAssessment) (weather : Option Weather)
    (cropStage : String) : ℤ :=
  20 +
  (match weather with
   | some w =>
      (if 25 ≤ w.temperature ∧ w.temperature ≤ 35 then 15 else 0) +
      (if w.humidity > 70 then 15 else 0) +
      (if w.humidity > 85 then 10 else 0) +
      (if w.rainfall > 20 then 5 else 0)
   | none => 0) +
  (if healthData.indices.ndvi < 0.3 then 15
   else if healthData.indices.ndvi < 0.5 then 8
   else 0) +
  (if cropStage = "flowering" ∨ cropStage = "fruiting" then 10 else 0)

/-! ## Alert generation (analysisEngine.js lines 189-202 and
routes/pestRisk.js lines 73-84) -/

/-- An `AlertRecord` `{ farmId, userId, type, priority, title, message,
expiresAt }`, with `expiresAt` a millisecond timestamp. -/
structure AlertRecord where
  farmId : String
  userId : String
  atype : String
  priority : String
  title : String
  message : String
  expiresAt : ℤ
deriving DecidableEq

/-- The source string of a `ProblemType` as stored in `p.type`. -/
def problemTypeStr : ProblemType → String
  | ProblemType.low_ndvi => "low_ndvi"
  | ProblemType.water_stress => "water_stress"
  | ProblemType.bare_soil => "bare_soil"
  | ProblemType.disease_risk => "disease_risk"

/-- `p.type.replace(/_/g, ' ')`: every underscore replaced by a space. -/
def replaceUnderscores (s : String) : String :=
  ⟨s.data.map fun c => if c = '_' then ' ' else c⟩

/-- `generateAlerts(farmId, userId, analysisResults)` (analysisEngine.js
lines 189-202): the health-score alert (critical below 25, warning below
50), then one urgent alert per high-severity problem, `soil`-typed for
water stress and `health`-typed otherwise.  `Date.now()` is passed in as
`now`; 3-day and 7-day expiries are millisecond offsets from it. -/
def generateAlerts (farmId userId : String) (now : ℤ)
    (analysisResults : HealthAssessment) : List AlertRecord :=
  let alerts : List AlertRecord := []
  let alerts :=
    if analysisResults.healthScore < 25 then
      alerts ++
        [{ farmId := farmId, userId := userId, atype := "health",
           priority := "urgent", title := "Critical Crop Health",
           message := "Health score is critically low (" ++
             toString analysisResults.healthScore ++
             "/100). Immediate attention needed.",
           expiresAt := now + 3 * 24 * 60 * 60 * 1000 }]
    else if analysisResults.healthScore < 50 then
      alerts ++
        [{ farmId := farmId, userId := userId, atype := "health",
           priority := "warning", title := "Low Crop Health",
           message := "Health score is below average (" ++
             toString analysisResults.healthScore ++ "/100).",
           expiresAt := now + 7 * 24 * 60 * 60 * 1000 }]
    else alerts
  alerts ++
    ((analysisResults.problems.filter fun p => p.severity = Severity.high).map
      fun p =>
        { farmId := farmId, userId := userId,
          atype := if p.ptype = ProblemType.water_stress then "soil" else "health",
          priority := "urgent",
          title := "Alert: " ++ replaceUnderscores (problemTypeStr p.ptype),
          message := p.message,
          expiresAt := now + 3 * 24 * 60 * 60 * 1000 })

/-- The alert block of `POST /:farmId/assess` (routes/pestRisk.js lines
73-84): when the assessment's risk level is high, exactly one urgent `pest`
alert is built, its message naming the first predicted pest and its
probability (with the `?? / ||` fallbacks for an empty list), expiring at
the assessment's `validUntil`; otherwise no alert is emitted. -/
def pestRiskRouteAlerts (farmId userId cropType : String)
    (assessment : PestRiskAssessment) : List AlertRecord :=
  if assessment.riskLevel = RiskLevel.high then
    [{ farmId := farmId, userId := userId, atype := "pest",
       priority := "urgent", title := "High Pest Risk Alert",
       message := "High pest risk (" ++ toString assessment.riskScore ++
         "/100) for " ++ cropType ++ ". " ++
         (match assessment.pestTypes with
          | p :: _ => p.name
          | [] => "Pests") ++
         " detected with " ++
         toString (match assessment.pestTypes with
          | p :: _ => p.probability
          | [] => 0) ++
         "% probability.",
       expiresAt := assessment.validUntil }]
  else []

/-! ## Soil analysis (analysisEngine.js lines 91-113) -/

/-- A soil record as a key-to-value mapping from JavaScript object keys to
values: `none` means the key is absent, `some v` means the key is present
with (possibly-`NaN`) number `v`. -/
abbrev SoilRecord := String → Option JsNum

/-- The `satelliteSoil` object literal of `analyzeSoil` (analysisEngine.js
lines 93-98) viewed as a key-value mapping: exactly the four proxy keys are
present.  `vegetationCover` and `estimatedMoisture` apply
`Math.max(0, Math.min(100, Math.round(...)))` to expressions in NDVI/NDMI;
on a `NaN` index every step stays `NaN` (`Option.map`). -/
def satelliteSoilFields (indices : IndexSetJ) : SoilRecord := fun k =>
  if k = "moistureIndex" then some indices.ndmi
  else if k = "baresoilIndex" then some indices.bsi
  else if k = "vegetationCover" then
    some (indices.ndvi.map fun v => max 0 (min 100 (jsRoundQ ((v + 1) / 2 * 100))))
  else if k = "estimatedMoisture" then
    some (indices.ndmi.map fun v => max 0 (min 100 (jsRoundQ ((v + 0.5) * 80))))
  else none

/-- The result of `analyzeSoil` restricted to what the verified claims
consume: the merged `soilMetrics` mapping and the computed indices.  The
recommendation list and `calculateSoilHealthScore` (analysisEngine.js lines
100-111 and 115-124) are not carried: no verified claim concerns them. -/
structure SoilAnalysisResult where
  soilMetrics : SoilRecord
  indices : IndexSetJ

/-- `analyzeSoil(bandData, existingSoilData)` (analysisEngine.js lines
91-113): computes the indices, builds the satellite proxy object and merges
`{ ...(existingSoilData || {}), ...satelliteSoil }` — a key present in the
satellite object overrides the manual record, every other key passes
through from the manual record (or is absent when the record is null). -/
def analyzeSoil (sq : ℚ → ℚ) (bandData : Bands)
    (existingSoilData : Option SoilRecord) : SoilAnalysisResult :=
  let indices := computeAllIndices sq bandData
  let base : SoilRecord :=
    match existingSoilData with
    | some e => e
    | none => fun _ => none
  { soilMetrics := fun k =>
      match satelliteSoilFields indices k with
      | some v => some v
      | none => base k
    indices := indices }

/-- Reference problem alert, following the spec's wording: every
high-severity problem maps to one urgent alert with 3-day expiry, typed
`soil` when the problem is water stress and `health` otherwise. -/
def specProblemAlert (farmId userId : String) (now : ℤ) (p : Problem) :
    AlertRecord :=
  { farmId := farmId, userId := userId,
    atype := if p.ptype = ProblemType.water_stress then "soil" else "health",
    priority := "urgent",
    title := "Alert: " ++ replaceUnderscores (problemTypeStr p.ptype),
    message := p.message,
    expiresAt := now + 3 * 24 * 60 * 60 * 1000 }

/-! ## Theorems -/

/-- Helper: a string appended between two others occurs in the
concatenation's character list. -/
theorem string_append_middle (A t B : String) :
    ∃ l r, (A ++ t ++ B).data = l ++ t.data ++ r :=
  ⟨A.data, B.data, by simp⟩

/-- C1 (counterexample): on a `BandSample` missing all five consumed bands,
`computeAllIndices` does not return `0` for NDVI — the absent bands
destructure to `undefined`, `B08 + B04` is `NaN`, the `=== 0` guard does not
fire, and the index comes out `NaN` (`none`), not `0`. -/
theorem computeAllIndices_missing_all_bands_counterexample :
    (computeAllIndices (fun q => q)
      ⟨none, none, none, none, none⟩).ndvi ≠ some 0 := by
  simp [computeAllIndices, lift2]

/-- C1 (amended): `computeAllIndices` does not treat an absent band as `0`;
an absent band propagates as `undefined`/`NaN`, so each index is `NaN`
(`none`) exactly when one of the bands it consumes is absent — and on a
`BandSample` missing all five consumed bands every returned index is `NaN`,
not `0`. -/
theorem computeAllIndices_absent_band_nan (sq : ℚ → ℚ) (b : Bands) :
    ((computeAllIndices sq b).ndvi = none ↔ b.B04 = none ∨ b.B08 = none) ∧
    ((computeAllIndices sq b).evi = none ↔
      b.B02 = none ∨ b.B04 = none ∨ b.B08 = none) ∧
    ((computeAllIndices sq b).savi = none ↔ b.B04 = none ∨ b.B08 = none) ∧
    ((computeAllIndices sq b).ndwi = none ↔ b.B03 = none ∨ b.B08 = none) ∧
    ((computeAllIndices sq b).ndmi = none ↔ b.B08 = none ∨ b.B11 = none) ∧
    ((computeAllIndices sq b).bsi = none ↔
      b.B02 = none ∨ b.B04 = none ∨ b.B08 = none ∨ b.B11 = none) ∧
    ((computeAllIndices sq b).msavi = none ↔ b.B04 = none ∨ b.B08 = none) ∧
    computeAllIndices sq ⟨none, none, none, none, none⟩ =
      ⟨none, none, none, none, none, none, none⟩ := by
  obtain ⟨b02, b03, b04, b08, b11⟩ := b
  cases b02 <;> cases b03 <;> cases b04 <;> cases b08 <;> cases b11 <;>
    simp [computeAllIndices, lift2, lift3, lift4]

/-- C8: `identifyProblems` returns exactly the qualifying problem entries,
each with its specified severity, all qualifying rules firing, in detection
order (NDVI, then moisture, then bare soil, then disease risk) — it equals
the spec-side concatenation of the four independent rule segments. -/
theorem identifyProblems_spec (indices : IndexSet) (weather : Option Weather) :
    identifyProblems indices weather = specProblems indices weather := by
  unfold identifyProblems specProblems
  rcases weather with _ | w <;> split_ifs <;> simp <;> split_ifs <;> simp

/-- C9: each index calculator returns `0` on its degenerate input — the six
ratio indices whenever their denominator is `0` (in particular
`computeNDVI 0 0 = 0`), and MSAVI whenever the radicand is negative,
whatever `Math.sqrt` would compute. -/
theorem index_degenerate_inputs_zero :
    (∀ B04 B08 : ℚ, B08 + B04 = 0 → computeNDVI B04 B08 = 0) ∧
    (∀ B02 B04 B08 : ℚ, B08 + 6 * B04 - 7.5 * B02 + 1 = 0 →
      computeEVI B02 B04 B08 = 0) ∧
    (∀ B04 B08 L : ℚ, B08 + B04 + L = 0 → computeSAVI B04 B08 L = 0) ∧
    (∀ B03 B08 : ℚ, B03 + B08 = 0 → computeNDWI B03 B08 = 0) ∧
    (∀ B08 B11 : ℚ, B08 + B11 = 0 → computeNDMI B08 B11 = 0) ∧
    (∀ B02 B04 B08 B11 : ℚ, (B11 + B04) + (B08 + B02) = 0 →
      computeBSI B02 B04 B08 B11 = 0) ∧
    computeNDVI 0 0 = 0 ∧
    (∀ (sq : ℚ → ℚ) (B04 B08 : ℚ), (2 * B08 + 1) ^ 2 - 8 * (B08 - B04) < 0 →
      computeMSAVI sq B04 B08 = 0) := by
  refine ⟨?_, ?_, ?_, ?_, ?_, ?_, ?_, ?_⟩
  · intro B04 B08 h; simp [computeNDVI, h]
  · intro B02 B04 B08 h; simp [computeEVI, h]
  · intro B04 B08 L h; simp [computeSAVI, h]
  · intro B03 B08 h; simp [computeNDWI, h]
  · intro B08 B11 h; simp [computeNDMI, h]
  · intro B02 B04 B08 B11 h; simp [computeBSI, h]
  · simp [computeNDVI]
  · intro sq B04 B08 h; simp [computeMSAVI, h]

/-- C9 witness: concrete degenerate inputs for every guarded calculator. -/
theorem index_degenerate_inputs_zero_witness :
    computeNDVI 0 0 = 0 ∧ computeEVI 0 0 (-1) = 0 ∧
    computeSAVI (-0.5) 0 0.5 = 0 ∧ computeNDWI 0 0 = 0 ∧
    computeNDMI 0 0 = 0 ∧ computeBSI 0 0 0 0 = 0 ∧
    computeMSAVI (fun q => q) (-10) 1 = 0 :=
  ⟨index_degenerate_inputs_zero.1 0 0 (by norm_num),
   index_degenerate_inputs_zero.2.1 0 0 (-1) (by norm_num),
   index_degenerate_inputs_zero.2.2.1 (-0.5) 0 0.5 (by norm_num),
   index_degenerate_inputs_zero.2.2.2.1 0 0 (by norm_num),
   index_degenerate_inputs_zero.2.2.2.2.1 0 0 (by norm_num),
   index_degenerate_inputs_zero.2.2.2.2.2.1 0 0 0 0 (by norm_num),
   index_degenerate_inputs_zero.2.2.2.2.2.2.2 (fun q => q) (-10) 1 (by norm_num)⟩

/-- Helper: `jsRound` is monotone. -/
theorem jsRound_mono {a b : ℚ} (hab : a ≤ b) : jsRound a ≤ jsRound b :=
  Int.floor_le_floor (by linarith)

/-- Helper: rounding commutes with clamping to `[0, 100]`, since rounding is
monotone and fixes `0` and `100`. -/
theorem jsRound_clamp (s : ℚ) :
    jsRound (max 0 (min 100 s)) = max 0 (min 100 (jsRound s)) := by
  have hmono : Monotone jsRound := fun a b hab => jsRound_mono hab
  rw [hmono.map_max, hmono.map_min]
  norm_num [jsRound]

/-- Helper: the health status threshold chain, read back as intervals. -/
theorem status_chain_iff (s : ℤ) :
    ((if s ≥ 75 then Status.healthy
      else if s ≥ 50 then Status.moderate
      else if s ≥ 25 then Status.poor
      else Status.critical) = Status.healthy ↔ 75 ≤ s) ∧
    ((if s ≥ 75 then Status.healthy
      else if s ≥ 50 then Status.moderate
      else if s ≥ 25 then Status.poor
      else Status.critical) = Status.moderate ↔ 50 ≤ s ∧ s < 75) ∧
    ((if s ≥ 75 then Status.healthy
      else if s ≥ 50 then Status.moderate
      else if s ≥ 25 then Status.poor
      else Status.critical) = Status.poor ↔ 25 ≤ s ∧ s < 50) ∧
    ((if s ≥ 75 then Status.healthy
      else if s ≥ 50 then Status.moderate
      else if s ≥ 25 then Status.poor
      else Status.critical) = Status.critical ↔ s < 25) := by
  split_ifs <;> simp <;> omega

/-- Helper: the risk level threshold chain, read back as intervals. -/
theorem riskLevel_chain_iff (s : ℤ) :
    ((if s ≥ 70 then RiskLevel.high
      else if s ≥ 40 then RiskLevel.medium
      else RiskLevel.low) = RiskLevel.high ↔ 70 ≤ s) ∧
    ((if s ≥ 70 then RiskLevel.high
      else if s ≥ 40 then RiskLevel.medium
      else RiskLevel.low) = RiskLevel.medium ↔ 40 ≤ s ∧ s < 70) ∧
    ((if s ≥ 70 then RiskLevel.high
      else if s ≥ 40 then RiskLevel.medium
      else RiskLevel.low) = RiskLevel.low ↔ s < 40) := by
  split_ifs <;> simp <;> omega

/-- C2: `analyzeCropHealth`'s health score equals the reference computation
(base 50, NDVI tier bonus, NDMI tier bonus, weather adjustments skipped when
weather is absent, BSI penalty, clamped to `[0, 100]` and rounded), and the
returned status is healthy iff the score is ≥ 75, moderate iff it is in
`[50, 75)`, poor iff it is in `[25, 50)`, and critical otherwise. -/
theorem analyzeCropHealth_score_status_spec (indices : IndexSet)
    (weather : Option Weather) (cropType : String) :
    (analyzeCropHealth indices weather cropType).healthScore =
      specHealthScore indices weather ∧
    ((analyzeCropHealth indices weather cropType).status = Status.healthy ↔
      75 ≤ specHealthScore indices weather) ∧
    ((analyzeCropHealth indices weather cropType).status = Status.moderate ↔
      50 ≤ specHealthScore indices weather ∧
        specHealthScore indices weather < 75) ∧
    ((analyzeCropHealth indices weather cropType).status = Status.poor ↔
      25 ≤ specHealthScore indices weather ∧
        specHealthScore indices weather < 50) ∧
    ((analyzeCropHealth indices weather cropType).status = Status.critical ↔
      specHealthScore indices weather < 25) := by
  have hscore : calculateHealthScore indices weather cropType =
      specHealthScore indices weather := by
    unfold calculateHealthScore specHealthScore
    rw [jsRound_clamp]
    rcases weather with _ | w <;> dsimp only <;> split_ifs <;> ring_nf
  have hstat : (analyzeCropHealth indices weather cropType).status =
      (if specHealthScore indices weather ≥ 75 then Status.healthy
       else if specHealthScore indices weather ≥ 50 then Status.moderate
       else if specHealthScore indices weather ≥ 25 then Status.poor
       else Status.critical) := by
    simp only [analyzeCropHealth]
    rw [hscore]
  refine ⟨?_, ?_, ?_, ?_, ?_⟩
  · simp only [analyzeCropHealth]; exact hscore
  · rw [hstat]; exact (status_chain_iff _).1
  · rw [hstat]; exact (status_chain_iff _).2.1
  · rw [hstat]; exact (status_chain_iff _).2.2.1
  · rw [hstat]; exact (status_chain_iff _).2.2.2

/-- C3: `assessPestRisk` matches the reference accumulation — the raw score
equals the spec-side sum of independent bonuses, the reported `riskScore` is
that total clamped to at most 100, the risk level is high/medium/low at the
70/40 thresholds on the accumulated score, and the confidence is
`60 + round(score/5)` clamped to at most 100. -/
theorem assessPestRisk_spec (now : ℤ) (hd : HealthAssessment)
    (weather : Option Weather) (cropType cropStage : String) :
    pestRiskAccum hd weather cropStage = specPestAccum hd weather cropStage ∧
    (assessPestRisk now hd weather cropType cropStage).riskScore =
      min 100 (specPestAccum hd weather cropStage) ∧
    ((assessPestRisk now hd weather cropType cropStage).riskLevel =
        RiskLevel.high ↔ 70 ≤ specPestAccum hd weather cropStage) ∧
    ((assessPestRisk now hd weather cropType cropStage).riskLevel =
        RiskLevel.medium ↔ 40 ≤ specPestAccum hd weather cropStage ∧
          specPestAccum hd weather cropStage < 70) ∧
    ((assessPestRisk now hd weather cropType cropStage).riskLevel =
        RiskLevel.low ↔ specPestAccum hd weather cropStage < 40) ∧
    (assessPestRisk now hd weather cropType cropStage).confidence =
      min 100 (60 + jsRound ((specPestAccum hd weather cropStage : ℚ) / 5)) := by
  have hacc : pestRiskAccum hd weather cropStage =
      specPestAccum hd weather cropStage := by
    unfold pestRiskAccum specPestAccum
    rcases weather with _ | w <;> dsimp only <;> split_ifs <;> omega
  have hlvl : (assessPestRisk now hd weather cropType cropStage).riskLevel =
      (if specPestAccum hd weather cropStage ≥ 70 then RiskLevel.high
       else if specPestAccum hd weather cropStage ≥ 40 then RiskLevel.medium
       else RiskLevel.low) := by
    simp only [assessPestRisk]
    rw [hacc]
  refine ⟨hacc, ?_, ?_, ?_, ?_, ?_⟩
  · simp only [assessPestRisk]; rw [hacc]
  · rw [hlvl]; exact (riskLevel_chain_iff _).1
  · rw [hlvl]; exact (riskLevel_chain_iff _).2.1
  · rw [hlvl]; exact (riskLevel_chain_iff _).2.2
  · simp only [assessPestRisk]; rw [hacc]

/-- C4: holding the indices, temperature, rainfall, wind speed, crop type
and crop stage fixed, the reported `riskScore` of `assessPestRisk` is
monotonically non-decreasing in humidity. -/
theorem assessPestRisk_monotone_humidity (now : ℤ) (hd : HealthAssessment)
    (t r ws : ℚ) (cropType cropStage : String) (h1 h2 : ℚ) (hle : h1 ≤ h2) :
    (assessPestRisk now hd (some ⟨t, h1, r, ws⟩) cropType cropStage).riskScore ≤
    (assessPestRisk now hd (some ⟨t, h2, r, ws⟩) cropType cropStage).riskScore := by
  have e1 : (if h1 > 70 then (15 : ℤ) else 0) ≤
      (if h2 > 70 then (15 : ℤ) else 0) := by
    split_ifs <;> first | rfl | linarith
  have e2 : (if h1 > 85 then (10 : ℤ) else 0) ≤
      (if h2 > 85 then (10 : ℤ) else 0) := by
    split_ifs <;> first | rfl | linarith
  have haccum : pestRiskAccum hd (some ⟨t, h1, r, ws⟩) cropStage ≤
      pestRiskAccum hd (some ⟨t, h2, r, ws⟩) cropStage := by
    unfold pestRiskAccum
    dsimp only
    exact add_le_add
      (add_le_add
        (add_le_add (add_le_add (add_le_add le_rfl e1) e2) le_rfl) le_rfl)
      le_rfl
  unfold assessPestRisk
  exact min_le_min le_rfl haccum

/-- C4 witness: humidity 60 versus humidity 90 at fixed other inputs. -/
theorem assessPestRisk_monotone_humidity_witness :
    (assessPestRisk 0 ⟨⟨0.8, 0, 0, 0, 0, 0, 0⟩, 90, [], Status.healthy⟩
      (some ⟨30, 60, 0, 0⟩) "wheat" "vegetative").riskScore ≤
    (assessPestRisk 0 ⟨⟨0.8, 0, 0, 0, 0, 0, 0⟩, 90, [], Status.healthy⟩
      (some ⟨30, 90, 0, 0⟩) "wheat" "vegetative").riskScore :=
  assessPestRisk_monotone_humidity 0 ⟨⟨0.8, 0, 0, 0, 0, 0, 0⟩, 90, [], Status.healthy⟩
    30 0 0 "wheat" "vegetative" 60 90 (by norm_num)

/-- Helper: the rounded fifth of an accumulator in `[20, 90]` lies in
`[4, 18]`. -/
theorem jsRound_fifth_bounds (n : ℤ) (hlo : 20 ≤ n) (hhi : n ≤ 90) :
    4 ≤ jsRound ((n : ℚ) / 5) ∧ jsRound ((n : ℚ) / 5) ≤ 18 := by
  unfold jsRound
  constructor
  · apply Int.le_floor.mpr
    push_cast
    have : (20 : ℚ) ≤ (n : ℚ) := by exact_mod_cast hlo
    linarith
  · have : (jsRound ((n : ℚ) / 5)) < 19 := by
      unfold jsRound
      apply Int.floor_lt.mpr
      push_cast
      have : (n : ℚ) ≤ (90 : ℚ) := by exact_mod_cast hhi
      linarith
    unfold jsRound at this
    omega

/-- C10: the raw pest risk accumulator always lies in `[20, 90]`, so the
reported `riskScore` equals the raw accumulator (the clamp to 100 never
binds) and the reported confidence equals `60 + round(accumulator/5)` and
lies in `[64, 78]` (its clamp to 100 never binds either). -/
theorem pestRisk_accum_bounds (now : ℤ) (hd : HealthAssessment)
    (weather : Option Weather) (cropType cropStage : String) :
    20 ≤ pestRiskAccum hd weather cropStage ∧
    pestRiskAccum hd weather cropStage ≤ 90 ∧
    (assessPestRisk now hd weather cropType cropStage).riskScore =
      pestRiskAccum hd weather cropStage ∧
    (assessPestRisk now hd weather cropType cropStage).confidence =
      60 + jsRound ((pestRiskAccum hd weather cropStage : ℚ) / 5) ∧
    64 ≤ (assessPestRisk now hd weather cropType cropStage).confidence ∧
    (assessPestRisk now hd weather cropType cropStage).confidence ≤ 78 := by
  have hlo : 20 ≤ pestRiskAccum hd weather cropStage := by
    unfold pestRiskAccum
    rcases weather with _ | w <;> dsimp only <;> split_ifs <;> omega
  have hhi : pestRiskAccum hd weather cropStage ≤ 90 := by
    unfold pestRiskAccum
    rcases weather with _ | w <;> dsimp only <;> split_ifs <;> omega
  obtain ⟨hr4, hr18⟩ := jsRound_fifth_bounds _ hlo hhi
  have hscore : (assessPestRisk now hd weather cropType cropStage).riskScore =
      pestRiskAccum hd weather cropStage := by
    simp only [assessPestRisk]
    omega
  have hconf : (assessPestRisk now hd weather cropType cropStage).confidence =
      60 + jsRound ((pestRiskAccum hd weather cropStage : ℚ) / 5) := by
    simp only [assessPestRisk]
    omega
  exact ⟨hlo, hhi, hscore, hconf, by omega, by omega⟩

/-- C6: `generateAlerts` emits the urgent "Critical Crop Health" alert with
3-day expiry when the health score is below 25, else the warning
"Low Crop Health" alert with 7-day expiry when it is below 50 (both messages
containing the numeric score), followed in both cases by one urgent 3-day
alert per high-severity problem (`soil`-typed for water stress, `health`
otherwise); and nothing at all when the score is at least 50 and no
high-severity problem exists. -/
theorem generateAlerts_spec (farmId userId : String) (now : ℤ)
    (hd : HealthAssessment) :
    (hd.healthScore < 25 →
      generateAlerts farmId userId now hd =
        { farmId := farmId, userId := userId, atype := "health",
          priority := "urgent", title := "Critical Crop Health",
          message := "Health score is critically low (" ++
            toString hd.healthScore ++ "/100). Immediate attention needed.",
          expiresAt := now + 3 * 24 * 60 * 60 * 1000 } ::
        (hd.problems.filter fun p => p.severity = Severity.high).map
          (specProblemAlert farmId userId now) ∧
      ∃ l r, ("Health score is critically low (" ++
          toString hd.healthScore ++
          "/100). Immediate attention needed.").data =
        l ++ (toString hd.healthScore).data ++ r) ∧
    (25 ≤ hd.healthScore → hd.healthScore < 50 →
      generateAlerts farmId userId now hd =
        { farmId := farmId, userId := userId, atype := "health",
          priority := "warning", title := "Low Crop Health",
          message := "Health score is below average (" ++
            toString hd.healthScore ++ "/100).",
          expiresAt := now + 7 * 24 * 60 * 60 * 1000 } ::
        (hd.problems.filter fun p => p.severity = Severity.high).map
          (specProblemAlert farmId userId now) ∧
      ∃ l r, ("Health score is below average (" ++
          toString hd.healthScore ++ "/100).").data =
        l ++ (toString hd.healthScore).data ++ r) ∧
    (50 ≤ hd.healthScore →
      generateAlerts farmId userId now hd =
        (hd.problems.filter fun p => p.severity = Severity.high).map
          (specProblemAlert farmId userId now)) ∧
    (50 ≤ hd.healthScore →
      (∀ p ∈ hd.problems, p.severity ≠ Severity.high) →
      generateAlerts farmId userId now hd = []) := by
  have hmap : ∀ l : List Problem,
      (l.map fun p =>
        ({ farmId := farmId, userId := userId,
           atype := if p.ptype = ProblemType.water_stress then "soil"
             else "health",
           priority := "urgent",
           title := "Alert: " ++ replaceUnderscores (problemTypeStr p.ptype),
           message := p.message,
           expiresAt := now + 3 * 24 * 60 * 60 * 1000 } : AlertRecord)) =
      l.map (specProblemAlert farmId userId now) := by
    intro l
    unfold specProblemAlert
    rfl
  refine ⟨?_, ?_, ?_, ?_⟩
  · intro h
    refine ⟨?_, string_append_middle _ _ _⟩
    unfold generateAlerts
    dsimp only
    rw [if_pos h, ← hmap]
    rfl
  · intro h25 h50
    refine ⟨?_, string_append_middle _ _ _⟩
    unfold generateAlerts
    dsimp only
    rw [if_neg (by omega), if_pos h50, ← hmap]
    rfl
  · intro h
    unfold generateAlerts
    dsimp only
    rw [if_neg (by omega), if_neg (by omega), ← hmap]
    rfl
  · intro h hp
    have hfilter : (hd.problems.filter fun p =>
        p.severity = Severity.high) = [] := by
      rw [List.filter_eq_nil_iff]
      intro p hpmem
      simpa using hp p hpmem
    unfold generateAlerts
    dsimp only
    rw [if_neg (by omega), if_neg (by omega), hfilter]
    rfl

/-- C6 witness: a health assessment with score 10 and no problems yields
exactly the critical alert, whose message contains "10". -/
theorem generateAlerts_spec_witness :
    generateAlerts "farm1" "user1" 0
        ⟨⟨0, 0, 0, 0, 0, 0, 0⟩, 10, [], Status.critical⟩ =
      [{ farmId := "farm1", userId := "user1", atype := "health",
         priority := "urgent", title := "Critical Crop Health",
         message := "Health score is critically low (10/100). Immediate attention needed.",
         expiresAt := 259200000 }] ∧
    ∃ l r,
      "Health score is critically low (10/100). Immediate attention needed.".data =
        l ++ "10".data ++ r := by
  obtain ⟨heq, hmem⟩ :=
    (generateAlerts_spec "farm1" "user1" 0
      ⟨⟨0, 0, 0, 0, 0, 0, 0⟩, 10, [], Status.critical⟩).1 (by norm_num)
  exact ⟨by rw [heq]; rfl, hmem⟩

/-- C7: `analyzeSoil`'s merged soil metrics agree with the manual record on
every key other than the four satellite proxy keys, and the satellite
computation sets exactly the four proxy keys `moistureIndex`,
`baresoilIndex`, `vegetationCover` and `estimatedMoisture` to their
index-derived values. -/
theorem analyzeSoil_frame (sq : ℚ → ℚ) (bands : Bands)
    (existing : Option SoilRecord) :
    (∀ k : String, k ≠ "moistureIndex" → k ≠ "baresoilIndex" →
      k ≠ "vegetationCover" → k ≠ "estimatedMoisture" →
      (analyzeSoil sq bands existing).soilMetrics k =
        (match existing with
         | some e => e k
         | none => none)) ∧
    ((analyzeSoil sq bands existing).soilMetrics "moistureIndex" =
      some (computeAllIndices sq bands).ndmi) ∧
    ((analyzeSoil sq bands existing).soilMetrics "baresoilIndex" =
      some (computeAllIndices sq bands).bsi) ∧
    ((analyzeSoil sq bands existing).soilMetrics "vegetationCover" =
      some ((computeAllIndices sq bands).ndvi.map fun v =>
        max 0 (min 100 (jsRoundQ ((v + 1) / 2 * 100))))) ∧
    ((analyzeSoil sq bands existing).soilMetrics "estimatedMoisture" =
      some ((computeAllIndices sq bands).ndmi.map fun v =>
        max 0 (min 100 (jsRoundQ ((v + 0.5) * 80))))) ∧
    (∀ k : String, k ≠ "moistureIndex" → k ≠ "baresoilIndex" →
      k ≠ "vegetationCover" → k ≠ "estimatedMoisture" →
      satelliteSoilFields (computeAllIndices sq bands) k = none) := by
  refine ⟨?_, ?_, ?_, ?_, ?_, ?_⟩
  · intro k h1 h2 h3 h4
    rcases existing with _ | e <;>
      simp [analyzeSoil, satelliteSoilFields, h1, h2, h3, h4]
  · rcases existing with _ | e <;> simp [analyzeSoil, satelliteSoilFields]
  · rcases existing with _ | e <;> simp [analyzeSoil, satelliteSoilFields]
  · rcases existing with _ | e <;> simp [analyzeSoil, satelliteSoilFields]
  · rcases existing with _ | e <;> simp [analyzeSoil, satelliteSoilFields]
  · intro k h1 h2 h3 h4
    simp [satelliteSoilFields, h1, h2, h3, h4]

/-- C7 witness: a manual pH value passes through the merge untouched while
the four proxy keys are set from the indices. -/
theorem analyzeSoil_frame_witness :
    (analyzeSoil (fun q => q)
      ⟨some 0.14, some 0.15, some 0.13, some 0.3, some 0.22⟩
      (some fun k => if k = "ph" then some (some 6.5) else none)).soilMetrics
        "ph" = some (some 6.5) := by
  have h :=
    (analyzeSoil_frame (fun q => q)
      ⟨some 0.14, some 0.15, some 0.13, some 0.3, some 0.22⟩
      (some fun k => if k = "ph" then some (some 6.5) else none)).1
      "ph" (by decide) (by decide) (by decide) (by decide)
  rw [h]
  rfl

/-- Helper: every base pest table is nonempty and its first entry has the
maximal base probability. -/
theorem pestBaseTable_head_max (cropType : String) :
    ∃ top rest, pestBaseTable cropType = top :: rest ∧
      ∀ p ∈ pestBaseTable cropType, p.probability ≤ top.probability := by
  unfold pestBaseTable
  split_ifs <;>
    exact ⟨_, _, rfl, by intro p hp; fin_cases hp <;> norm_num⟩

/-- Helper: the scaled-and-clamped probability is monotone in the base
probability, for a non-negative multiplier. -/
theorem scaledProb_mono (m : ℚ) (hm : 0 ≤ m) {a b : ℤ} (hab : a ≤ b) :
    min 95 (jsRound ((a : ℚ) * m)) ≤ min 95 (jsRound ((b : ℚ) * m)) :=
  min_le_min le_rfl
    (jsRound_mono (mul_le_mul_of_nonneg_right (by exact_mod_cast hab) hm))

/-- C5: for an assessment whose pest list comes from `getPredictedPests`
(as `assessPestRisk` produces), the `POST /:farmId/assess` route emits no
pest alert unless the risk level is high, and at high risk emits exactly one
urgent `pest` alert whose message names the first predicted pest — which
carries the maximal probability of the whole list — and its probability,
expiring at the assessment's `validUntil`. -/
theorem pestRisk_route_alert_spec (farmId userId cropType : String)
    (weather : Option Weather) (a : PestRiskAssessment)
    (hp : a.pestTypes = getPredictedPests cropType weather a.riskLevel) :
    (a.riskLevel ≠ RiskLevel.high →
      pestRiskRouteAlerts farmId userId cropType a = []) ∧
    (a.riskLevel = RiskLevel.high →
      ∃ top rest, a.pestTypes = top :: rest ∧
        (∀ p ∈ a.pestTypes, p.probability ≤ top.probability) ∧
        pestRiskRouteAlerts farmId userId cropType a =
          [{ farmId := farmId, userId := userId, atype := "pest",
             priority := "urgent", title := "High Pest Risk Alert",
             message := "High pest risk (" ++ toString a.riskScore ++
               "/100) for " ++ cropType ++ ". " ++ top.name ++
               " detected with " ++ toString top.probability ++
               "% probability.",
             expiresAt := a.validUntil }] ∧
        (∃ l r, ("High pest risk (" ++ toString a.riskScore ++
            "/100) for " ++ cropType ++ ". " ++ top.name ++
            " detected with " ++ toString top.probability ++
            "% probability.").data = l ++ top.name.data ++ r) ∧
        (∃ l r, ("High pest risk (" ++ toString a.riskScore ++
            "/100) for " ++ cropType ++ ". " ++ top.name ++
            " detected with " ++ toString top.probability ++
            "% probability.").data =
          l ++ (toString top.probability).data ++ r)) := by
  constructor
  · intro h
    unfold pestRiskRouteAlerts
    rw [if_neg h]
  · intro h
    rw [h] at hp
    obtain ⟨bt, br, hbt, hmax⟩ := pestBaseTable_head_max cropType
    have hmul : getPredictedPests cropType weather RiskLevel.high =
        (pestBaseTable cropType).map fun p =>
          { p with probability := min 95 (jsRound ((p.probability : ℚ) * 1.3)) } := by
      unfold getPredictedPests
      simp
    rw [hmul, hbt, List.map_cons] at hp
    refine ⟨_, _, hp, ?_, ?_, ?_, ?_⟩
    · intro p hpmem
      rw [hp] at hpmem
      rcases List.mem_cons.mp hpmem with rfl | hmem
      · exact le_rfl
      · obtain ⟨q, hq, rfl⟩ := List.mem_map.mp hmem
        exact scaledProb_mono 1.3 (by norm_num)
          (hmax q (by rw [hbt]; exact List.mem_cons_of_mem _ hq))
    · unfold pestRiskRouteAlerts
      rw [if_pos h, hp]
    · exact ⟨("High pest risk (" ++ toString a.riskScore ++ "/100) for " ++
        cropType ++ ". ").data,
        (" detected with " ++ toString
          (min 95 (jsRound ((bt.probability : ℚ) * 1.3))) ++
          "% probability.").data, by simp⟩
    · exact ⟨("High pest risk (" ++ toString a.riskScore ++ "/100) for " ++
        cropType ++ ". " ++ bt.name ++ " detected with ").data,
        ("% probability.").data, by simp⟩

/-- C5 witness: a concrete high-risk assessment over wheat yields exactly
one pest alert. -/
theorem pestRisk_route_alert_spec_witness :
    pestRiskRouteAlerts "farm1" "user1" "wheat"
      (assessPestRisk 0 ⟨⟨0.8, 0, 0, 0, 0, 0, 0⟩, 90, [], Status.healthy⟩
        (some ⟨30, 90, 25, 1⟩) "wheat" "flowering") =
      [{ farmId := "farm1", userId := "user1", atype := "pest",
         priority := "urgent", title := "High Pest Risk Alert",
         message := "High pest risk (75/100) for wheat. Aphids detected with 59% probability.",
         expiresAt := 604800000 }] := by
  obtain ⟨top, rest, hlist, hmax, halert, h1, h2⟩ :=
    (pestRisk_route_alert_spec "farm1" "user1" "wheat" (some ⟨30, 90, 25, 1⟩)
      (assessPestRisk 0 ⟨⟨0.8, 0, 0, 0, 0, 0, 0⟩, 90, [], Status.healthy⟩
        (some ⟨30, 90, 25, 1⟩) "wheat" "flowering") rfl).2
      (by norm_num [assessPestRisk, pestRiskAccum])
  rw [halert]
  have htop : top = ⟨"Aphids", 59, "Common in warm weather"⟩ := by
    have : (assessPestRisk 0 ⟨⟨0.8, 0, 0, 0, 0, 0, 0⟩, 90, [], Status.healthy⟩
        (some ⟨30, 90, 25, 1⟩) "wheat" "flowering").pestTypes =
        [⟨"Aphids", 59, "Common in warm weather"⟩,
         ⟨"Rust", 46, "Fungal disease in humid conditions"⟩] := by
      norm_num [assessPestRisk, pestRiskAccum, getPredictedPests,
        pestBaseTable, jsRound]
    rw [this] at hlist
    simp only [List.cons.injEq] at hlist
    exact hlist.1.symm
  have hscore75 : (assessPestRisk 0
      ⟨⟨0.8, 0, 0, 0, 0, 0, 0⟩, 90, [], Status.healthy⟩
      (some ⟨30, 90, 25, 1⟩) "wheat" "flowering").riskScore = 75 := by
    norm_num [assessPestRisk, pestRiskAccum]
  have hvu : (assessPestRisk 0
      ⟨⟨0.8, 0, 0, 0, 0, 0, 0⟩, 90, [], Status.healthy⟩
      (some ⟨30, 90, 25, 1⟩) "wheat" "flowering").validUntil = 604800000 := by
    norm_num [assessPestRisk]
  rw [htop, hscore75, hvu]
  rfl

end CropHealth
